import Mathlib

/-!
Shallow embedding of the `sync` client (part_000) and the `runtime` metrics
types (metrics_types.go) of the lthibault/sdk-go repository, with theorems
settling the specification claims about them.

Conventions: Go machine integers are modelled as `Int`/`Nat` (no value in
these files approaches overflow); `time.Duration` values are nanosecond
counts (`Nat`); a Go function that can panic or return an error is modelled
with `Except String`; side effects (goroutine starts, connection opens and
closes, `WaitGroup` registration) are recorded in explicit trace structures
threaded through the translated functions.
-/

namespace SdkGo

/-! ## runtime/metrics_types.go -/

/-- Go `MetricType` is `type MetricType int`; modelled as `Int` so that
out-of-range values are representable. -/
abbrev MetricType := Int

/-- Constants of the `iota` block: `MetricPoint MetricType = iota`, then
`MetricCounter`, ..., `MetricTimer`. -/
def MetricPoint : MetricType := 0
def MetricCounter : MetricType := 1
def MetricEWMA : MetricType := 2
def MetricGauge : MetricType := 3
def MetricHistogram : MetricType := 4
def MetricMeter : MetricType := 5
def MetricTimer : MetricType := 6

/-- The array literal `[...]string{"point", "counter", "ewma", "gauge",
"histogram", "meter", "timer"}` indexed by `MetricType.String`. -/
def metricTypeNames : List String :=
  ["point", "counter", "ewma", "gauge", "histogram", "meter", "timer"]

/-- The Go runtime's message for an out-of-bounds array index, which is what
indexing the 7-element name array with an out-of-range `MetricType` panics
with. -/
def indexOutOfRange : String := "runtime error: index out of range"

/-- `func (mt MetricType) String() string`: indexes a fixed 7-element array;
the implicit Go bounds check (panic on out-of-range index) is modelled as the
`Except` error branch. -/
def MetricType.String (mt : MetricType) : Except String String :=
  if 0 ≤ mt ∧ mt < 7 then .ok (metricTypeNames.getD mt.toNat (""))
  else .error indexOutOfRange

/-- The dynamic type of the `interface{}` argument of `NewMetric`: one of the
seven recognized metric kinds, or any other dynamic type (`other`, carrying
the Go type name). The float-valued snapshot data carried by the go-metrics
values is irrelevant to every claim and is not modelled; only the set of
measure keys each branch writes is kept. -/
inductive MetricArg where
  | point
  | counter
  | ewma
  | gauge
  | histogram
  | meter
  | timer
  | other (typeName : String)
deriving DecidableEq, Repr

/-- The `MetricType` that `NewMetric`'s switch assigns to `t` for each
recognized dynamic type; `none` for the `default:` branch. -/
def metricKind : MetricArg → Option MetricType
  | .point => some MetricPoint
  | .counter => some MetricCounter
  | .ewma => some MetricEWMA
  | .gauge => some MetricGauge
  | .histogram => some MetricHistogram
  | .meter => some MetricMeter
  | .timer => some MetricTimer
  | .other _ => none

/-- The measure keys each recognized branch of `NewMetric` writes into
`m.Measures`, in source order (the values are float snapshots, abstracted). -/
def measureKeys : MetricArg → List String
  | .point => ["value"]
  | .counter => ["count"]
  | .ewma => ["rate"]
  | .gauge => ["value"]
  | .histogram =>
      ["count", "max", "mean", "min", "stddev", "variance",
       "p50", "p75", "p95", "p99", "p999", "p9999"]
  | .meter => ["count", "m1", "m5", "m15", "mean"]
  | .timer =>
      ["count", "max", "mean", "min", "stddev", "variance",
       "p50", "p75", "p95", "p99", "p999", "p9999",
       "m1", "m5", "m15", "meanrate"]
  | .other _ => []

/-- `type Metric struct`: `Measures` is modelled as the list of keys written
(the map's key set in insertion order); its float values are abstracted. -/
structure Metric where
  Timestamp : Int
  /-- the Go field `Type` (a Lean keyword, hence the underscore) -/
  Type_ : MetricType
  Name : String
  Measures : List String
deriving DecidableEq, Repr

/-- `func NewMetric(name string, i interface{}) *Metric`.

`ts` stands for `time.Now().UnixNano()` (an input of the model).
`pooled` is the nondeterministic result of `pools[t].Get()`: `some m` when
the pool returns a previously released metric, `none` when it falls through
to the pool's `New` allocator, which returns a blank `Metric` (its initial
`Type` field is immediately overwritten below, so the loop-variable capture
in the `pools` initializer is unobservable here). The `default:` branch's
`panic("unexpected metric type")` is the `Except` error. -/
def NewMetric (name : String) (ts : Int) (i : MetricArg) (pooled : Option Metric) :
    Except String Metric :=
  match metricKind i with
  | none => .error ("unexpected metric type")
  | some t =>
    let m0 : Metric :=
      match pooled with
      | some m => m
      | none => { Timestamp := 0, Type_ := t, Name := "", Measures := [] }
    let m1 : Metric := { m0 with Measures := m0.Measures ++ measureKeys i }
    .ok { m1 with Timestamp := ts, Type_ := t, Name := name }

/-! ## sync client (src/unnamed/part_000)

Contexts: a Go `context.Context` is modelled as the chain of cancel-scope
ids from the root, so `context.WithCancel(ctx)` appends a fresh id and the
returned cancel function cancels exactly that id.  A context is done when
any id on its chain has been canceled. -/

abbrev Context := List Nat

/-- `ctx.Done()` has fired: some cancel scope on the chain was canceled. -/
def ctxDone (canceled : List Nat) (ctx : Context) : Bool :=
  ctx.any (fun i => canceled.contains i)

/-- `redis.Options`: the tuning fields set by `DefaultRedisOpts` plus `Addr`.
Durations are in nanoseconds. -/
structure RedisOptions where
  Addr : String
  MinIdleConns : Nat
  PoolSize : Nat
  PoolTimeout : Nat
  MaxRetries : Nat
  MinRetryBackoff : Nat
  MaxRetryBackoff : Nat
  DialTimeout : Nat
  ReadTimeout : Nat
  WriteTimeout : Nat
  IdleCheckFrequency : Nat
  MaxConnAge : Nat
deriving DecidableEq, Repr

/-- `time.Second` in nanoseconds. -/
def timeSecond : Nat := 1000000000

/-- `time.Minute` in nanoseconds. -/
def timeMinute : Nat := 60 * timeSecond

/-- `var DefaultRedisOpts = redis.Options{...}` (the `Addr` field is left at
its Go zero value, the empty string). -/
def DefaultRedisOpts : RedisOptions where
  Addr := ""
  MinIdleConns := 2
  PoolSize := 5
  PoolTimeout := 3 * timeMinute
  MaxRetries := 30
  MinRetryBackoff := 1 * timeSecond
  MaxRetryBackoff := 3 * timeSecond
  DialTimeout := 10 * timeSecond
  ReadTimeout := 10 * timeSecond
  WriteTimeout := 10 * timeSecond
  IdleCheckFrequency := 30 * timeSecond
  MaxConnAge := 2 * timeMinute

/-- `*redis.Client` as produced by `redis.NewClient(&opts).WithContext(ctx)`:
the options it was built with and the context it is bound to (the go-redis
client issues its commands under this context). The pool's closed flag lives
in `World`, shared by every handle cloned from the same client. -/
structure RedisClient where
  opts : RedisOptions
  ctx : Context
deriving DecidableEq, Repr

/-- Process environment: `os.Getenv` returns `""` for an unset variable, so
the two variables are plain strings with `""` meaning unset. -/
structure Env where
  redisHost : String
  redisPort : String
deriving DecidableEq, Repr

/-- `strconv.Atoi`: an optional sign followed by at least one decimal digit
(the int64 range check is omitted; no claim involves values near 2^63).
Implemented over the character list so it reduces definitionally. -/
def atoi (s : String) : Except String Int :=
  let neg : Bool :=
    match s.data with
    | c :: _ => c = '-'
    | [] => false
  let signed : Bool :=
    match s.data with
    | c :: _ => c = '-' ∨ c = '+'
    | [] => false
  let body : List Char := if signed then s.data.tail else s.data
  if body.isEmpty then .error ("invalid syntax")
  else if body.all (fun c => c.isDigit) then
    let n : Nat := body.foldl (fun acc c => acc * 10 + (c.toNat - 48)) 0
    .ok (if neg then -(n : Int) else (n : Int))
  else .error ("invalid syntax")

/-- Side effects of `redisClient`: the options of every `redis.NewClient`
call made, and how many of those clients were closed before returning. -/
structure ProvisionTrace where
  built : List RedisOptions
  closedCount : Nat
deriving DecidableEq, Repr

/-- `func redisClient(ctx context.Context, log *zap.SugaredLogger)
(*redis.Client, error)`.

`pingOk` is the network oracle for `client.Ping().Err()` (the store's
reachability and health are environment facts outside the program).  On a
malformed `REDIS_PORT` it returns before any client is built; on a ping
failure it closes the half-open client (`_ = client.Close()`) and returns
the ping error unwrapped. -/
def redisClient (env : Env) (ctx : Context) (pingOk : Bool) :
    Except String RedisClient × ProvisionTrace :=
  let host := env.redisHost
  let portE : Except String Int :=
    if env.redisPort ≠ "" then atoi env.redisPort else .ok 6379
  match portE with
  | .error e =>
      (.error ("failed to parse port: " ++ e), { built := [], closedCount := 0 })
  | .ok port =>
      let opts : RedisOptions :=
        { DefaultRedisOpts with Addr := host ++ ":" ++ toString port }
      let client : RedisClient := { opts := opts, ctx := ctx }
      if pingOk then (.ok client, { built := [opts], closedCount := 0 })
      else (.error ("ping failed"), { built := [opts], closedCount := 1 })

/-- The goroutines `newClient` can start. -/
inductive Goroutine where
  | barrierWorker
  | subscriptionWorker
  | poolSampler
deriving DecidableEq, Repr

/-- The logger, reduced to the one bit `newClient` queries:
`log.Desugar().Core().Enabled(zap.DebugLevel)`. -/
structure Logger where
  debugEnabled : Bool
deriving DecidableEq, Repr

/-- The inline pool-statistics sampler goroutine: its ticker interval in
nanoseconds and the context whose `Done` channel makes it return. -/
structure PoolSampler where
  intervalNs : Nat
  ctx : Context
deriving DecidableEq, Repr

/-- Whether the sampler's `select` takes the `<-ctx.Done(): return` branch
under the given set of canceled scope ids. -/
def samplerExits (s : PoolSampler) (canceled : List Nat) : Bool :=
  ctxDone canceled s.ctx

/-- `type DefaultClient struct`, restricted to the fields the claims are
about. `ctx`/`cancelId`: the child context derived by `context.WithCancel`
and the scope id its cancel function cancels. `wgGoroutines`: the goroutines
whose termination `wg.Wait()` observes — `newClient` calls `wg.Add(2)` for
the two manager workers (their bodies, which call `Done` on exit, are
outside the excerpt; per the spec they exit on context cancellation); the
sampler closure in the source never references `wg`. -/
structure DefaultClient where
  ctx : Context
  cancelId : Nat
  rclient : RedisClient
  wgGoroutines : List Goroutine
deriving DecidableEq, Repr

/-- Side effects of `newClient`: the provisioning trace, the goroutines
started (in source order), the total `wg.Add` count, the goroutines the
wait-group tracks, and the sampler value when one was started. -/
structure NewClientTrace where
  provision : ProvisionTrace
  started : List Goroutine
  wgAdded : Nat
  wgJoined : List Goroutine
  sampler : Option PoolSampler
deriving DecidableEq, Repr

/-- `func newClient(ctx context.Context, log *zap.SugaredLogger, extractor
...) (*DefaultClient, error)`.

`freshId` is the fresh cancel-scope id allocated by `context.WithCancel`.
Order is as in the source: `redisClient` is called with the CALLER's `ctx`,
and only afterwards is the cancelable child context derived; the child (not
the parent) is stored in the client and governs the workers and the sampler.
On provisioning failure the error is wrapped
(`fmt.Errorf("failed to create redis client: %w", err)`) and nothing is
started. -/
def newClient (ctx : Context) (freshId : Nat) (log : Logger) (env : Env)
    (pingOk : Bool) : Except String DefaultClient × NewClientTrace :=
  match redisClient env ctx pingOk with
  | (.error e, tr) =>
      (.error ("failed to create redis client: " ++ e),
       { provision := tr, started := [], wgAdded := 0, wgJoined := [],
         sampler := none })
  | (.ok rclient, tr) =>
      let child : Context := ctx ++ [freshId]
      let c : DefaultClient :=
        { ctx := child, cancelId := freshId, rclient := rclient,
          wgGoroutines := [.barrierWorker, .subscriptionWorker] }
      if log.debugEnabled then
        (.ok c,
         { provision := tr,
           started := [.barrierWorker, .subscriptionWorker, .poolSampler],
           wgAdded := 2,
           wgJoined := [.barrierWorker, .subscriptionWorker],
           sampler := some { intervalNs := 1 * timeSecond, ctx := child } })
      else
        (.ok c,
         { provision := tr,
           started := [.barrierWorker, .subscriptionWorker],
           wgAdded := 2,
           wgJoined := [.barrierWorker, .subscriptionWorker],
           sampler := none })

/-- The observable steps `Close` performs, in order. -/
inductive CloseEvent where
  /-- `c.cancel()` canceled the given scope id. -/
  | cancelCtx (id : Nat)
  /-- `c.wg.Wait()` returned after the listed goroutines terminated. -/
  | wgWait (joined : List Goroutine)
  /-- the go-redis connection pool actually tore down (its closed flag
  transitioned from false to true). -/
  | connClosed
deriving DecidableEq, Repr

/-- Mutable world state threaded through `Close`: the canceled scope ids,
the go-redis pool's closed flag, and the ordered event log. -/
structure World where
  canceled : List Nat
  poolClosed : Bool
  log : List CloseEvent
deriving DecidableEq, Repr

/-- go-redis v7 `ErrClosed` ("redis: client is closed"), returned by
`(*redis.Client).Close` when the pool's closed flag is already set. -/
def errClosed : String := "redis: client is closed"

/-- `c.rclient.Close()`: go-redis v7 guards the pool teardown with a
compare-and-swap on a closed flag; the first call tears the pool down and
returns nil, a second call returns `pool.ErrClosed`. -/
def rclientClose (w : World) : Except String Unit × World :=
  if w.poolClosed then (.error errClosed, w)
  else (.ok (), { w with poolClosed := true, log := w.log ++ [.connClosed] })

/-- `func (c *DefaultClient) Close() error`: cancel the child context, wait
on the wait-group, then close the redis client and return its result. -/
def DefaultClient.Close (c : DefaultClient) (w : World) :
    Except String Unit × World :=
  let w1 : World :=
    { w with canceled := c.cancelId :: w.canceled,
             log := w.log ++ [.cancelCtx c.cancelId] }
  let w2 : World := { w1 with log := w1.log ++ [.wgWait c.wgGoroutines] }
  rclientClose w2

/-- How many times the pool actually tore down, per the event log. -/
def countConnClosed (log : List CloseEvent) : Nat :=
  (log.filter (fun e => e = .connClosed)).length

/-! ## Shared concrete values and helper lemmas -/

/-- The options `redisClient` builds for host "h" with the port unset. -/
def opts0 : RedisOptions := { DefaultRedisOpts with Addr := "h:6379" }

/-- The client `newClient [0] 1 log ⟨"h", ""⟩ true` returns (for either
logger): parent context `[0]`, fresh cancel scope `1`. -/
def sampleClient : DefaultClient where
  ctx := [0, 1]
  cancelId := 1
  rclient := { opts := opts0, ctx := [0] }
  wgGoroutines := [.barrierWorker, .subscriptionWorker]

/-- A fresh world: nothing canceled, pool open, empty event log. -/
def w0 : World where
  canceled := []
  poolClosed := false
  log := []

/-- Helper: a successful `redisClient` call returns a handle bound to the
context it was given, whose options are the defaults with only `Addr`
changed (to the resolved host and port), and records exactly that one
client build. -/
theorem redisClient_ok_shape (env : Env) (ctx : Context) (pingOk : Bool)
    (r : RedisClient) (tr : ProvisionTrace)
    (h : redisClient env ctx pingOk = (.ok r, tr)) :
    r.ctx = ctx ∧ r.opts = { DefaultRedisOpts with Addr := r.opts.Addr } ∧
    tr.built = [r.opts] ∧ tr.closedCount = 0 ∧
    ∃ port : Int,
      (if env.redisPort ≠ "" then atoi env.redisPort else .ok 6379) = .ok port ∧
      r.opts.Addr = env.redisHost ++ ":" ++ toString port := by
  unfold redisClient at h
  cases hport : (if env.redisPort ≠ "" then atoi env.redisPort else Except.ok 6379) with
  | error e => rw [hport] at h; simp at h
  | ok port =>
    rw [hport] at h
    cases pingOk with
    | false => simp at h
    | true =>
      simp only [if_pos] at h
      injection h with h1 h2
      injection h1 with h1
      subst h1
      subst h2
      exact ⟨rfl, rfl, rfl, rfl, port, rfl, rfl⟩

/-- Helper: a failed `redisClient` call closes every client it built (the
half-open handle from a failed ping is closed; a malformed port builds
none). -/
theorem redisClient_error_shape (env : Env) (ctx : Context) (pingOk : Bool)
    (e : String) (tr : ProvisionTrace)
    (h : redisClient env ctx pingOk = (.error e, tr)) :
    tr.closedCount = tr.built.length := by
  unfold redisClient at h
  cases hport : (if env.redisPort ≠ "" then atoi env.redisPort else Except.ok 6379) with
  | error e2 =>
    rw [hport] at h
    injection h with h1 h2
    subst h2
    rfl
  | ok port =>
    rw [hport] at h
    cases pingOk with
    | true => simp at h
    | false =>
      simp only [Bool.false_eq_true, if_false] at h
      injection h with h1 h2
      subst h2
      rfl

/-- Helper: the shape of a successfully constructed client — child context,
cancel scope id, connection bound to the parent context, and the wait-group
tracking exactly the two manager workers. -/
theorem newClient_ok_shape (ctx : Context) (freshId : Nat) (log : Logger)
    (env : Env) (pingOk : Bool) (c : DefaultClient)
    (hc : (newClient ctx freshId log env pingOk).1 = .ok c) :
    c.ctx = ctx ++ [freshId] ∧ c.cancelId = freshId ∧ c.rclient.ctx = ctx ∧
    c.wgGoroutines = [.barrierWorker, .subscriptionWorker] := by
  unfold newClient at hc
  cases hr : redisClient env ctx pingOk with
  | mk res tr =>
    rw [hr] at hc
    cases res with
    | error e => simp at hc
    | ok r =>
      have hrc := redisClient_ok_shape env ctx pingOk r tr hr
      cases hdbg : log.debugEnabled <;> simp only [hdbg] at hc <;>
        simp only [Bool.false_eq_true, if_false, if_pos] at hc <;>
        injection hc with hc <;> subst hc <;>
        exact ⟨rfl, rfl, hrc.1, rfl⟩

/-! ## Theorems settling the claims -/

/-- C10: `MetricType.String` returns the fixed name of each of the seven
defined metric types (indices 0 through 6) and panics with an
index-out-of-range error for every `MetricType` value outside that range. -/
theorem metricType_String_total_spec :
    (MetricType.String MetricPoint = .ok ("point") ∧
     MetricType.String MetricCounter = .ok ("counter") ∧
     MetricType.String MetricEWMA = .ok ("ewma") ∧
     MetricType.String MetricGauge = .ok ("gauge") ∧
     MetricType.String MetricHistogram = .ok ("histogram") ∧
     MetricType.String MetricMeter = .ok ("meter") ∧
     MetricType.String MetricTimer = .ok ("timer")) ∧
    ∀ mt : MetricType, mt < 0 ∨ 7 ≤ mt →
      MetricType.String mt = .error indexOutOfRange := by
  refine ⟨⟨rfl, rfl, rfl, rfl, rfl, rfl, rfl⟩, ?_⟩
  intro mt h
  have hn : ¬ (0 ≤ mt ∧ mt < 7) := by
    rcases h with h | h
    · exact fun hc => absurd h (not_lt.mpr hc.1)
    · exact fun hc => absurd hc.2 (not_lt.mpr h)
  unfold MetricType.String
  rw [if_neg hn]

/-- Witness for C10: the out-of-range branch applied at the concrete
out-of-range value 7. -/
theorem metricType_String_total_spec_witness :
    MetricType.String 7 = .error indexOutOfRange :=
  metricType_String_total_spec.2 7 (Or.inr (by norm_num))

/-- C9: `NewMetric` panics for every argument whose dynamic type is not one
of the seven recognized metric kinds, and for every recognized kind (every
pool state and timestamp) it returns a metric whose `Type` matches the
argument's kind and whose `Name` and `Timestamp` fields are set to the given
name and the sampled clock value. -/
theorem newMetric_spec :
    (∀ name ts pooled s,
       NewMetric name ts (.other s) pooled = .error ("unexpected metric type")) ∧
    (∀ name ts pooled i t, metricKind i = some t →
       (NewMetric name ts i pooled).toOption.map
         (fun m => (m.Type_, m.Name, m.Timestamp)) = some (t, name, ts)) := by
  constructor
  · intro name ts pooled s
    rfl
  · intro name ts pooled i t h
    cases i <;>
      simp only [metricKind, Option.some.injEq, reduceCtorEq] at h <;>
      (subst h; cases pooled <;> rfl)

/-- Witness for C9: a recognized kind (`Gauge`) at a concrete name,
timestamp and pool state. -/
theorem newMetric_spec_witness :
    (NewMetric ("x") 5 .gauge none).toOption.map
      (fun m => (m.Type_, m.Name, m.Timestamp)) = some (MetricGauge, "x", 5) :=
  newMetric_spec.2 ("x") 5 none .gauge MetricGauge rfl

/-- C1 counterexample: at a concrete successful construction (parent
context `[0]`, fresh cancel scope `1`, host "h", healthy store) the
connection handle is bound to the caller's parent context `[0]`, not to the
client's cancelable context `[0, 1]` (the context whose cancel function
`Close` invokes), and canceling that cancel scope (`1`) does not make the
connection's context done — so it does not unblock a blocking call issued
through the handle. -/
theorem conn_not_bound_to_cancelable_ctx :
    (newClient [0] 1 ⟨false⟩ ⟨"h", ""⟩ true).1 = .ok sampleClient ∧
    sampleClient.rclient.ctx ≠ sampleClient.ctx ∧
    ctxDone [sampleClient.cancelId] sampleClient.rclient.ctx = false := by
  refine ⟨rfl, by decide, by decide⟩

/-- C1 (amended): every backing-store call issued through the client's
handle goes through a connection bound to the CALLER-supplied parent
context: `newClient` builds the connection before deriving the cancelable
child context, so canceling any scope of the parent context unblocks an
in-progress blocking call, but canceling only the child scope that `Close`
cancels leaves the connection's context un-done. -/
theorem conn_bound_to_parent_ctx (ctx : Context) (freshId : Nat)
    (log : Logger) (env : Env) (pingOk : Bool) (c : DefaultClient)
    (hc : (newClient ctx freshId log env pingOk).1 = .ok c) :
    c.rclient.ctx = ctx ∧ c.ctx = ctx ++ [freshId] ∧ c.cancelId = freshId ∧
    (∀ id ∈ ctx, ctxDone [id] c.rclient.ctx = true) ∧
    (freshId ∉ ctx → ctxDone [freshId] c.rclient.ctx = false) := by
  obtain ⟨h1, h2, h3, h4⟩ := newClient_ok_shape ctx freshId log env pingOk c hc
  refine ⟨h3, h1, h2, ?_, ?_⟩
  · intro id hid
    rw [h3]
    simp only [ctxDone, List.any_eq_true]
    exact ⟨id, hid, by simp⟩
  · intro hni
    rw [h3]
    simp [ctxDone]
    intro i hi
    exact fun he => hni (he ▸ hi)

/-- Witness for C1 (amended), at the concrete construction behind the
counterexample: parent `[0]`, fresh scope `1`. -/
theorem conn_bound_to_parent_ctx_witness :
    sampleClient.rclient.ctx = [0] ∧ sampleClient.ctx = [0] ++ [1] ∧
    ctxDone [0] sampleClient.rclient.ctx = true ∧
    ctxDone [1] sampleClient.rclient.ctx = false :=
  ⟨(conn_bound_to_parent_ctx [0] 1 ⟨false⟩ ⟨"h", ""⟩ true sampleClient rfl).1,
   (conn_bound_to_parent_ctx [0] 1 ⟨false⟩ ⟨"h", ""⟩ true sampleClient rfl).2.1,
   (conn_bound_to_parent_ctx [0] 1 ⟨false⟩ ⟨"h", ""⟩ true sampleClient
      rfl).2.2.2.1 0 (by decide),
   (conn_bound_to_parent_ctx [0] 1 ⟨false⟩ ⟨"h", ""⟩ true sampleClient
      rfl).2.2.2.2 (by decide)⟩

/-- C2 counterexample: with debug logging enabled (concrete construction),
the constructor starts three goroutines but calls `wg.Add(2)` and registers
only the two manager workers with the wait-group; the pool sampler it
started is not among the goroutines `Close`'s `wg.Wait()` joins. -/
theorem sampler_started_but_not_joined :
    (newClient [0] 1 ⟨true⟩ ⟨"h", ""⟩ true).2.started =
      [.barrierWorker, .subscriptionWorker, .poolSampler] ∧
    (newClient [0] 1 ⟨true⟩ ⟨"h", ""⟩ true).2.wgAdded = 2 ∧
    (newClient [0] 1 ⟨true⟩ ⟨"h", ""⟩ true).2.wgJoined =
      [.barrierWorker, .subscriptionWorker] ∧
    Goroutine.poolSampler ∉ (newClient [0] 1 ⟨true⟩ ⟨"h", ""⟩ true).2.wgJoined := by
  decide

/-- C2 (amended): `Close` cancels the client's child context, then joins via
the wait-group the two manager goroutines only — the optional sampler is
never registered with the wait-group (it exits on its own when the canceled
context's `Done` fires) — and only then closes the underlying connection,
returning the connection's close result. -/
theorem close_order_and_join_set (ctx : Context) (freshId : Nat)
    (log : Logger) (env : Env) (pingOk : Bool) (c : DefaultClient) (w : World)
    (hc : (newClient ctx freshId log env pingOk).1 = .ok c)
    (hw : w.poolClosed = false) :
    (c.Close w).1 = .ok () ∧
    (c.Close w).2.log = w.log ++
      [.cancelCtx freshId,
       .wgWait [.barrierWorker, .subscriptionWorker], .connClosed] ∧
    c.wgGoroutines = [.barrierWorker, .subscriptionWorker] ∧
    Goroutine.poolSampler ∉ c.wgGoroutines ∧
    (c.Close w).2.canceled = freshId :: w.canceled ∧
    (c.Close w).2.poolClosed = true := by
  obtain ⟨h1, h2, h3, h4⟩ := newClient_ok_shape ctx freshId log env pingOk c hc
  unfold DefaultClient.Close rclientClose
  simp [hw, h2, h4, List.append_assoc]

/-- Witness for C2 (amended): the concrete client and a fresh world. -/
theorem close_order_and_join_set_witness :
    (sampleClient.Close w0).1 = .ok () ∧
    (sampleClient.Close w0).2.log = w0.log ++
      [.cancelCtx 1,
       .wgWait [.barrierWorker, .subscriptionWorker], .connClosed] ∧
    sampleClient.wgGoroutines = [.barrierWorker, .subscriptionWorker] ∧
    Goroutine.poolSampler ∉ sampleClient.wgGoroutines ∧
    (sampleClient.Close w0).2.canceled = 1 :: w0.canceled ∧
    (sampleClient.Close w0).2.poolClosed = true :=
  close_order_and_join_set [0] 1 ⟨false⟩ ⟨"h", ""⟩ true sampleClient w0 rfl rfl

/-- C3: for every construction attempt in which provisioning the
backing-store connection fails (malformed port, or a failed ping — which is
how an unreachable host and a failed health check both surface), the
constructor returns no client together with the single wrapped error
`failed to create redis client: <cause>`, starts no manager or sampler
goroutine, registers nothing with the wait-group, and every connection
opened during provisioning was closed before returning. -/
theorem newClient_provision_failure_clean (ctx : Context) (freshId : Nat)
    (log : Logger) (env : Env) (pingOk : Bool) (e : String)
    (h : (redisClient env ctx pingOk).1 = .error e) :
    (newClient ctx freshId log env pingOk).1 =
      .error ("failed to create redis client: " ++ e) ∧
    (newClient ctx freshId log env pingOk).2.started = [] ∧
    (newClient ctx freshId log env pingOk).2.wgAdded = 0 ∧
    (newClient ctx freshId log env pingOk).2.sampler = none ∧
    (newClient ctx freshId log env pingOk).2.provision.closedCount =
      (newClient ctx freshId log env pingOk).2.provision.built.length := by
  cases hr : redisClient env ctx pingOk with
  | mk res tr =>
    rw [hr] at h
    simp only at h
    subst h
    unfold newClient
    rw [hr]
    exact ⟨rfl, rfl, rfl, rfl, redisClient_error_shape env ctx pingOk e tr hr⟩

/-- Witness for C3: a malformed port value ("x1"). -/
theorem newClient_provision_failure_clean_witness :
    (newClient [0] 1 ⟨false⟩ ⟨"h", "x1"⟩ true).1 =
      .error ("failed to create redis client: " ++ "failed to parse port: invalid syntax") ∧
    (newClient [0] 1 ⟨false⟩ ⟨"h", "x1"⟩ true).2.started = [] ∧
    (newClient [0] 1 ⟨false⟩ ⟨"h", "x1"⟩ true).2.wgAdded = 0 ∧
    (newClient [0] 1 ⟨false⟩ ⟨"h", "x1"⟩ true).2.sampler = none ∧
    (newClient [0] 1 ⟨false⟩ ⟨"h", "x1"⟩ true).2.provision.closedCount =
      (newClient [0] 1 ⟨false⟩ ⟨"h", "x1"⟩ true).2.provision.built.length :=
  newClient_provision_failure_clean [0] 1 ⟨false⟩ ⟨"h", "x1"⟩ true
    ("failed to parse port: invalid syntax") rfl

/-- C4 counterexample: at a concrete client and fresh world, the first
`Close` returns nil but a second `Close` reaches `rclient.Close()` again
and receives go-redis's already-closed error — not the same terminal result
as the first call. -/
theorem second_close_differs :
    ((sampleClient.Close w0).1 = .ok ()) ∧
    ((sampleClient.Close (sampleClient.Close w0).2).1 = .error errClosed) ∧
    (Except.ok () ≠ (Except.error errClosed : Except String Unit)) :=
  ⟨rfl, rfl, fun h => Except.noConfusion h⟩

/-- C4 (amended): calling `Close` twice never panics and never double-closes
the connection — the pool teardown happens exactly once, guarded by the
pool's closed flag — but the second call returns the pool's already-closed
error rather than the first call's nil result. -/
theorem close_twice_single_teardown (c : DefaultClient) (w : World)
    (hw : w.poolClosed = false) :
    ((c.Close w).1 = .ok ()) ∧
    ((c.Close (c.Close w).2).1 = .error errClosed) ∧
    countConnClosed ((c.Close (c.Close w).2).2.log) =
      countConnClosed w.log + 1 ∧
    (c.Close (c.Close w).2).2.poolClosed = true := by
  unfold DefaultClient.Close rclientClose countConnClosed
  simp [hw, List.filter_append]

/-- Witness for C4 (amended): the concrete client and a fresh world. -/
theorem close_twice_single_teardown_witness :
    ((sampleClient.Close w0).1 = .ok ()) ∧
    ((sampleClient.Close (sampleClient.Close w0).2).1 = .error errClosed) ∧
    countConnClosed ((sampleClient.Close (sampleClient.Close w0).2).2.log) =
      countConnClosed w0.log + 1 ∧
    (sampleClient.Close (sampleClient.Close w0).2).2.poolClosed = true :=
  close_twice_single_teardown sampleClient w0 rfl

/-- The client built when no host is provided: the address degenerates to
":6379". -/
def emptyHostClient : DefaultClient where
  ctx := [0, 1]
  cancelId := 1
  rclient := { opts := { DefaultRedisOpts with Addr := ":6379" }, ctx := [0] }
  wgGoroutines := [.barrierWorker, .subscriptionWorker]

/-- C5 counterexample: with no host provided (`REDIS_HOST` unset, so
`os.Getenv` yields the empty string) and a store answering the ping,
construction succeeds — the code never checks that a host was supplied; it
formats the address ":6379" and proceeds. -/
theorem construction_succeeds_without_host :
    (newClient [0] 1 ⟨false⟩ ⟨"", ""⟩ true).1 = .ok emptyHostClient ∧
    emptyHostClient.rclient.opts.Addr = ":6379" :=
  ⟨rfl, rfl⟩

/-- C5 (amended): the host input is not validated. When no host is provided
the client is built with the address ":6379" and construction succeeds
exactly when the health check succeeds; a missing host by itself never
fails construction. -/
theorem host_never_required (ctx : Context) (freshId : Nat) (log : Logger)
    (pingOk : Bool) :
    (newClient ctx freshId log ⟨"", ""⟩ pingOk).1.toOption.map
      (fun c => c.rclient.opts.Addr) =
      (if pingOk then some (":6379") else none) := by
  rcases log with ⟨dbg⟩
  cases dbg <;> cases pingOk <;> rfl

/-- C6: when the port input is unset the resolved address uses the backing
store's default port 6379; when it is set to a non-integer string (one
`strconv.Atoi` rejects), provisioning returns the wrapped parse error and
opens no connection. -/
theorem port_default_and_malformed (env : Env) (ctx : Context) (pingOk : Bool) :
    (env.redisPort = "" →
      ∀ o ∈ (redisClient env ctx pingOk).2.built,
        o.Addr = env.redisHost ++ ":" ++ "6379") ∧
    (∀ e, atoi env.redisPort = .error e → env.redisPort ≠ "" →
      (redisClient env ctx pingOk).1 = .error ("failed to parse port: " ++ e) ∧
      (redisClient env ctx pingOk).2.built = []) := by
  constructor
  · intro hp o ho
    have hb : (redisClient env ctx pingOk).2.built =
        [{ DefaultRedisOpts with
             Addr := env.redisHost ++ ":" ++ toString (6379 : Int) }] := by
      unfold redisClient
      rw [hp]
      simp only [ne_eq, not_true_eq_false, if_false]
      cases pingOk <;> rfl
    rw [hb] at ho
    simp only [List.mem_singleton] at ho
    subst ho
    rfl
  · intro e he hne
    unfold redisClient
    rw [if_pos hne, he]
    exact ⟨rfl, rfl⟩

/-- Witness for C6: host "h" with port unset resolves to "h:6379"; the
malformed port "zz" is rejected with no connection built. -/
theorem port_default_and_malformed_witness :
    (opts0.Addr = "h" ++ ":" ++ "6379") ∧
    ((redisClient ⟨"h", "zz"⟩ [0] true).1 =
       .error ("failed to parse port: " ++ "invalid syntax") ∧
     (redisClient ⟨"h", "zz"⟩ [0] true).2.built = []) :=
  ⟨(port_default_and_malformed ⟨"h", ""⟩ [0] true).1 rfl opts0 (by decide),
   (port_default_and_malformed ⟨"h", "zz"⟩ [0] true).2 ("invalid syntax")
     rfl (by decide)⟩

/-- C7: every options record passed to `redis.NewClient` equals
`DefaultRedisOpts` in every tuning field — only the `Addr` field differs,
set from the resolved host and port. -/
theorem pool_opts_frame (env : Env) (ctx : Context) (pingOk : Bool)
    (o : RedisOptions) (h : o ∈ (redisClient env ctx pingOk).2.built) :
    o = { DefaultRedisOpts with Addr := o.Addr } ∧
    ∃ port : Int,
      (if env.redisPort ≠ "" then atoi env.redisPort else .ok 6379) = .ok port ∧
      o.Addr = env.redisHost ++ ":" ++ toString port := by
  unfold redisClient at h
  cases hport : (if env.redisPort ≠ "" then atoi env.redisPort else Except.ok 6379) with
  | error e => rw [hport] at h; simp at h
  | ok port =>
    rw [hport] at h
    cases pingOk <;> simp only [List.mem_singleton, if_pos,
      Bool.false_eq_true, if_false] at h <;> subst h <;>
      exact ⟨rfl, port, rfl, rfl⟩

/-- Witness for C7: the record built for host "h", port unset, equals the
defaults in every tuning field. -/
theorem pool_opts_frame_witness :
    opts0 = { DefaultRedisOpts with Addr := opts0.Addr } :=
  (pool_opts_frame ⟨"h", ""⟩ [0] true opts0 (by decide)).1

/-- C8: whenever construction succeeds, the periodic pool-statistics sampler
goroutine — ticking at the 1-second interval and exiting when the client's
cancelable context is done (in particular after `Close` cancels it) — is
started if and only if debug-level diagnostics are enabled on the supplied
logger. -/
theorem sampler_iff_debug (ctx : Context) (freshId : Nat) (log : Logger)
    (env : Env) (pingOk : Bool) (c : DefaultClient)
    (hc : (newClient ctx freshId log env pingOk).1 = .ok c) :
    ((Goroutine.poolSampler ∈ (newClient ctx freshId log env pingOk).2.started) ↔
      log.debugEnabled = true) ∧
    (newClient ctx freshId log env pingOk).2.sampler.isSome = log.debugEnabled ∧
    (∀ s, (newClient ctx freshId log env pingOk).2.sampler = some s →
      s.intervalNs = 1 * timeSecond ∧ s.ctx = c.ctx ∧
      samplerExits s [c.cancelId] = true) := by
  obtain ⟨h1, h2, h3, h4⟩ := newClient_ok_shape ctx freshId log env pingOk c hc
  unfold newClient
  cases hr : redisClient env ctx pingOk with
  | mk res tr =>
    cases res with
    | error e =>
      exfalso
      unfold newClient at hc
      rw [hr] at hc
      simp at hc
    | ok r =>
      cases hdbg : log.debugEnabled <;>
        simp only [hdbg, Bool.false_eq_true, if_false, if_pos] <;>
        refine ⟨by simp, rfl, ?_⟩
      · intro s hs
        simp at hs
      · intro s hs
        simp only [Option.some.injEq] at hs
        subst hs
        refine ⟨rfl, ?_, ?_⟩
        · rw [h1]
        · simp [samplerExits, ctxDone, h2]

/-- Witness for C8: with debug enabled, the sampler is started, recorded in
the trace, and exits once the scope `Close` cancels is canceled. -/
theorem sampler_iff_debug_witness :
    (Goroutine.poolSampler ∈ (newClient [0] 1 ⟨true⟩ ⟨"h", ""⟩ true).2.started) ∧
    (newClient [0] 1 ⟨true⟩ ⟨"h", ""⟩ true).2.sampler.isSome = true ∧
    samplerExits { intervalNs := 1 * timeSecond, ctx := [0, 1] } [1] = true :=
  ⟨(sampler_iff_debug [0] 1 ⟨true⟩ ⟨"h", ""⟩ true sampleClient rfl).1.mpr rfl,
   (sampler_iff_debug [0] 1 ⟨true⟩ ⟨"h", ""⟩ true sampleClient rfl).2.1,
   ((sampler_iff_debug [0] 1 ⟨true⟩ ⟨"h", ""⟩ true sampleClient rfl).2.2
      { intervalNs := 1 * timeSecond, ctx := [0, 1] } rfl).2.2⟩

end SdkGo
